import Mathlib

/-! Host-side kernels of the query cross-entropy target.

A shallow embedding of `catboost/cuda/targets/query_cross_entropy_kernels.h`.

The header defines six host kernel classes in `NKernelHost`.  Each class holds
handles of device buffers and has a `Run` method which checks some sizes,
computes a 32-bit count and enqueues exactly one device routine of `NKernel`
on a stream.  The embedding keeps

* the buffer handles with their `Size()` and `Get()`,
* the integer conversions made by `Run` (unsigned 64-bit size arithmetic,
  narrowing to `ui32`, `static_cast<int>`, `reinterpret_cast<const int*>`),
* the order of the checks and of the device call, by threading the stream
  through `Run` and recording every enqueued device call on it.
-/

/-! ## Machine integers -/

/-- Number of values of an unsigned 32-bit integer. -/
def ui32Mod : Nat := 4294967296

/-- Number of values of an unsigned 64-bit integer. -/
def ui64Mod : Nat := 18446744073709551616

/-- Conversion of an unsigned 64-bit value to `ui32`: the low 32 bits are kept. -/
def toUi32 (n : Nat) : Nat := n % ui32Mod

/-- Subtraction of unsigned 64-bit values, wrapping below zero. -/
def ui64Sub (a b : Nat) : Nat := (a % ui64Mod + ui64Mod - b % ui64Mod) % ui64Mod

/-- Subtraction of `ui32` values, wrapping below zero. -/
def ui32Sub (a b : Nat) : Nat := (a % ui32Mod + ui32Mod - b % ui32Mod) % ui32Mod

/-- Product of `ui32` values: the low 32 bits are kept. -/
def ui32Mul (a b : Nat) : Nat := (a % ui32Mod) * (b % ui32Mod) % ui32Mod

/-- Conversion to a signed 32-bit `int`: the low 32 bits read in two's complement. -/
def toInt32 (n : Nat) : Int :=
  if n % ui32Mod < 2147483648 then ((n % ui32Mod : Nat) : Int)
  else ((n % ui32Mod : Nat) : Int) - 4294967296

/-- A `float` value, kept as its bit pattern: the host code only moves floats around. -/
structure TFloat where
  Bits : Nat
deriving DecidableEq, Repr

/-- A `double` value, kept as its bit pattern. -/
structure TDouble where
  Bits : Nat
deriving DecidableEq, Repr

/-- The CUDA vector type `uint2`. -/
structure uint2 where
  x : Nat
  y : Nat
deriving DecidableEq, Repr

/-! ## Device buffers, device calls and streams -/

/-- Handle of a device buffer: `Data` is what the buffer holds on the device. -/
structure TCudaBufferPtr (α : Type) where
  Data : List α
deriving DecidableEq, Repr

namespace TCudaBufferPtr

/-- The method `Size()`: number of elements of the buffer. -/
def Size {α : Type} (b : TCudaBufferPtr α) : Nat := b.Data.length

/-- The method `Get()`: the device memory of the buffer. -/
def Get {α : Type} (b : TCudaBufferPtr α) : List α := b.Data

end TCudaBufferPtr

/-- The cast `reinterpret_cast<const int*>` of a `ui32` array: every element is
read as a signed 32-bit integer. -/
def reinterpretAsInt (xs : List Nat) : List Int := xs.map toInt32

/-- One call of a device routine of `NKernel`, with the arguments in the order
of the call in the header (the trailing stream argument is the stream the call
is recorded on). -/
inductive TDeviceCall where
  | QueryCrossEntropy (qidCursor : List Int) (queryCount : Nat) (alpha : TDouble)
      (targets weights values : List TFloat) (loadIndices : List Int) (qids : List Nat)
      (isSingleClassQueries : List Bool) (queryOffsets : List Nat) (docCount : Int)
      (functionValue ders ders2llp ders2llmax groupDers2 : List TFloat)
  | ComputeQueryLogitMatrixSizes (queryOffsets : List Nat) (isSingleQueryFlags : List Bool)
      (queryCount : Nat) (matrixSize : List Nat)
  | MakeQueryLogitPairs (queryOffsets matrixOffset : List Nat) (isSingleQueryFlags : List Bool)
      (meanQuerySize : TDouble) (queryCount : Nat) (pairs : List uint2)
  | MakeIsSingleClassFlags (targets : List TFloat) (loadIndices queryOffsets : List Nat)
      (queryCount : Nat) (meanQuerySize : TDouble) (isSingleClassQuery : List Bool)
  | FillPairDer2Only (ders2 groupDers2 : List TFloat) (qids : List Nat) (pairs : List uint2)
      (pairCount : Nat) (pairDer2 : List TFloat)
  | FillPairDer2AndRemapPairDocuments (ders2 groupDers2 : List TFloat) (docIds qids : List Nat)
      (pairCount : Nat) (pairDer2 : List TFloat) (pairs : List uint2)
deriving DecidableEq, Repr

/-- A stream: the device calls enqueued on it so far, oldest first. -/
structure TCudaStream where
  Calls : List TDeviceCall
deriving DecidableEq, Repr

/-- How a failed invocation ends. -/
inductive EFailure where
  /-- The process is terminated on the spot; no caller can intercept it. -/
  | Abort
  /-- A `TCatBoostException` is thrown; a caller may catch it and go on. -/
  | Exception
deriving DecidableEq, Repr

/-- Outcome of `Run`: the stream as `Run` leaves it, and the failure, if any. -/
structure TRunResult where
  Stream : TCudaStream
  Failure : Option EFailure
deriving DecidableEq, Repr

/-- The rest of a `Run` body, as a function of the stream. -/
abbrev TRunBody := TCudaStream → TRunResult

/-- Modelled from the spec: `Y_VERIFY` is defined in `util/system/yassert.h`, which is
not among the sources.  It is the precondition check of section 7, "fatal, aborts
the invocation immediately": when the condition is false the process is
terminated and nothing after the check runs. -/
def Y_VERIFY (cond : Prop) [Decidable cond] (rest : TRunBody) : TRunBody :=
  fun stream => if cond then rest stream else { Stream := stream, Failure := some EFailure.Abort }

/-- The check `CB_ENSURE`.  It is defined in `catboost/libs/helpers/exception.h`,
which is not among the sources: when the condition is false nothing after the
check runs, and how the invocation then ends is fixed by that definition.  The
kind of failure is therefore the parameter `failure`. -/
def CB_ENSURE (failure : EFailure) (cond : Prop) [Decidable cond] (rest : TRunBody) : TRunBody :=
  fun stream => if cond then rest stream else { Stream := stream, Failure := some failure }

/-- Enqueue one device call on the stream and return normally. -/
def launch (call : TDeviceCall) : TRunBody :=
  fun stream => { Stream := { Calls := stream.Calls ++ [call] }, Failure := none }

namespace NKernel

/-- The kernel context of `TQueryCrossEntropyKernel`: the device-resident work cursor. -/
structure TQueryLogitContext where
  QidCursor : List Int
deriving DecidableEq, Repr

end NKernel

namespace NKernelHost

/-! ## The kernel classes -/

/-- Fields of `TQueryCrossEntropyKernel`. -/
structure TQueryCrossEntropyKernel where
  Alpha : TDouble
  Targets : TCudaBufferPtr TFloat
  Weights : TCudaBufferPtr TFloat
  Values : TCudaBufferPtr TFloat
  LoadIndices : TCudaBufferPtr Nat
  Qids : TCudaBufferPtr Nat
  IsSingleClassQueries : TCudaBufferPtr Bool
  QueryOffsets : TCudaBufferPtr Nat
  FunctionValue : TCudaBufferPtr TFloat
  Ders : TCudaBufferPtr TFloat
  Ders2llp : TCudaBufferPtr TFloat
  Ders2llmax : TCudaBufferPtr TFloat
  GroupDers2 : TCudaBufferPtr TFloat
deriving DecidableEq, Repr

/-- The method `TQueryCrossEntropyKernel::Run`. -/
def TQueryCrossEntropyKernel.Run (k : TQueryCrossEntropyKernel) (stream : TCudaStream)
    (context : NKernel.TQueryLogitContext) : TRunResult :=
  Y_VERIFY (k.QueryOffsets.Size > 0)
    (let queryCount := toUi32 (ui64Sub k.QueryOffsets.Size 1)
     launch (TDeviceCall.QueryCrossEntropy context.QidCursor
       queryCount
       k.Alpha
       k.Targets.Get
       k.Weights.Get
       k.Values.Get
       (reinterpretAsInt k.LoadIndices.Get)
       k.Qids.Get
       k.IsSingleClassQueries.Get
       k.QueryOffsets.Get
       (toInt32 k.Targets.Size)
       k.FunctionValue.Get
       k.Ders.Get
       k.Ders2llp.Get
       k.Ders2llmax.Get
       k.GroupDers2.Get))
    stream

/-- Fields of `TComputeQueryLogitMatrixSizesKernel`. -/
structure TComputeQueryLogitMatrixSizesKernel where
  QueryOffsets : TCudaBufferPtr Nat
  IsSingleQueryFlags : TCudaBufferPtr Bool
  MatrixSize : TCudaBufferPtr Nat
deriving DecidableEq, Repr

/-- The method `TComputeQueryLogitMatrixSizesKernel::Run`. -/
def TComputeQueryLogitMatrixSizesKernel.Run (k : TComputeQueryLogitMatrixSizesKernel)
    (stream : TCudaStream) : TRunResult :=
  Y_VERIFY (k.QueryOffsets.Size > 0)
    (let queryCount := toUi32 (ui64Sub k.QueryOffsets.Size 1)
     launch (TDeviceCall.ComputeQueryLogitMatrixSizes k.QueryOffsets.Get
       k.IsSingleQueryFlags.Get queryCount k.MatrixSize.Get))
    stream

/-- Fields of `TMakeQueryLogitPairsKernel`. -/
structure TMakeQueryLogitPairsKernel where
  QueryOffsets : TCudaBufferPtr Nat
  MatrixOffset : TCudaBufferPtr Nat
  IsSingleQueryFlags : TCudaBufferPtr Bool
  MeanQuerySize : TDouble
  Pairs : TCudaBufferPtr uint2
deriving DecidableEq, Repr

/-- The method `TMakeQueryLogitPairsKernel::Run`. -/
def TMakeQueryLogitPairsKernel.Run (k : TMakeQueryLogitPairsKernel)
    (stream : TCudaStream) : TRunResult :=
  Y_VERIFY (k.QueryOffsets.Size > 0)
    (let queryCount := toUi32 (ui64Sub k.QueryOffsets.Size 1)
     launch (TDeviceCall.MakeQueryLogitPairs k.QueryOffsets.Get
       k.MatrixOffset.Get
       k.IsSingleQueryFlags.Get
       k.MeanQuerySize
       queryCount
       k.Pairs.Get))
    stream

/-- Fields of `TMakeIsSingleClassFlagsKernel`. -/
structure TMakeIsSingleClassFlagsKernel where
  Targets : TCudaBufferPtr TFloat
  LoadIndices : TCudaBufferPtr Nat
  QueryOffsets : TCudaBufferPtr Nat
  MeanQuerySize : TDouble
  IsSingleClassQuery : TCudaBufferPtr Bool
deriving DecidableEq, Repr

/-- The method `TMakeIsSingleClassFlagsKernel::Run`. -/
def TMakeIsSingleClassFlagsKernel.Run (k : TMakeIsSingleClassFlagsKernel)
    (stream : TCudaStream) : TRunResult :=
  Y_VERIFY (k.QueryOffsets.Size > 0)
    (Y_VERIFY (k.LoadIndices.Size = k.IsSingleClassQuery.Size)
      (let queryCount := toUi32 (ui64Sub k.QueryOffsets.Size 1)
       launch (TDeviceCall.MakeIsSingleClassFlags k.Targets.Get k.LoadIndices.Get
         k.QueryOffsets.Get
         queryCount
         k.MeanQuerySize
         k.IsSingleClassQuery.Get)))
    stream

/-- Fields of `TFillPairDer2OnlyKernel`. -/
structure TFillPairDer2OnlyKernel where
  Ders2 : TCudaBufferPtr TFloat
  GroupDers2 : TCudaBufferPtr TFloat
  Qids : TCudaBufferPtr Nat
  Pairs : TCudaBufferPtr uint2
  PairDer2 : TCudaBufferPtr TFloat
deriving DecidableEq, Repr

/-- The method `TFillPairDer2OnlyKernel::Run`: no check precedes the device call. -/
def TFillPairDer2OnlyKernel.Run (k : TFillPairDer2OnlyKernel)
    (stream : TCudaStream) : TRunResult :=
  launch (TDeviceCall.FillPairDer2Only k.Ders2.Get
    k.GroupDers2.Get
    k.Qids.Get
    k.Pairs.Get
    (toUi32 k.Pairs.Size)
    k.PairDer2.Get)
    stream

/-- Fields of `TFillPairDer2AndRemapPairDocumentsKernel`. -/
structure TFillPairDer2AndRemapPairDocumentsKernel where
  Ders2 : TCudaBufferPtr TFloat
  GroupDers2 : TCudaBufferPtr TFloat
  DocIds : TCudaBufferPtr Nat
  Qids : TCudaBufferPtr Nat
  PairDer2 : TCudaBufferPtr TFloat
  Pairs : TCudaBufferPtr uint2
deriving DecidableEq, Repr

/-- The method `TFillPairDer2AndRemapPairDocumentsKernel::Run`.  The pair count is
the expression `PairDer2.Size()` as written at the call; `ensureFailure` is the
kind of failure a violated `CB_ENSURE` raises. -/
def TFillPairDer2AndRemapPairDocumentsKernel.Run (k : TFillPairDer2AndRemapPairDocumentsKernel)
    (stream : TCudaStream) (ensureFailure : EFailure) : TRunResult :=
  CB_ENSURE ensureFailure (k.PairDer2.Size = k.Pairs.Size)
    (launch (TDeviceCall.FillPairDer2AndRemapPairDocuments k.Ders2.Get k.GroupDers2.Get
      k.DocIds.Get k.Qids.Get k.PairDer2.Size k.PairDer2.Get k.Pairs.Get))
    stream

end NKernelHost

namespace NKernel

/-- Modelled from the spec: the pair count of one group, section 4.2.  "For a
non-single-class group of size n, required pair count is n·(n−1)/2 in the
exhaustive design.  For a single-class group, pair count is 0."  The group size
and the count are `ui32` values, as the boundary array and the output array are
`ui32` arrays in the header, so the expression is evaluated in `ui32`
arithmetic and the result always fits a `ui32` cell. -/
def QueryLogitMatrixSize (isSingleClass : Bool) (n : Nat) : Nat :=
  if isSingleClass then 0 else ui32Mul n (ui32Sub n 1) / 2

/-- Modelled from the spec: the device routine `NKernel::ComputeQueryLogitMatrixSizes`
lives in `catboost/cuda/targets/kernel/query_cross_entropy.cu`, which is not among
the sources; only its call in `TComputeQueryLogitMatrixSizesKernel::Run` is.
Following section 4.2 (PairSizer), for every group `i < queryCount` it stores the
pair count of the group, whose size is `queryOffsets[i + 1] - queryOffsets[i]`
(section 3), at position `i` of the output.  The flag buffer holds one entry per
document, which is the layout `TMakeIsSingleClassFlagsKernel::Run` enforces on
the buffer it fills (`LoadIndices.Size() == IsSingleClassQuery.Size()`); the flag
of a group is read at the first document of the group.  The result is the
output buffer after the call.  Reads past the end of an input yield a default
value. -/
def ComputeQueryLogitMatrixSizes (queryOffsets : List Nat) (isSingleClassQuery : List Bool)
    (queryCount : Nat) (matrixSize : List Nat) : List Nat :=
  (List.range queryCount).foldl
    (fun out i =>
      out.set i (QueryLogitMatrixSize (isSingleClassQuery.getD (queryOffsets.getD i 0) false)
        (ui32Sub (queryOffsets.getD (i + 1) 0) (queryOffsets.getD i 0))))
    matrixSize

end NKernel

/-! ## Concrete inputs -/

namespace Scenario

/-- The bit pattern of the float `0.0`. -/
def f0 : TFloat := ⟨0⟩

/-- The bit pattern of the float `1.0`. -/
def f1 : TFloat := ⟨1065353216⟩

/-- A buffer of `n` floats, all zero. -/
def floats (n : Nat) : TCudaBufferPtr TFloat := ⟨List.replicate n f0⟩

/-- The stream before anything is enqueued. -/
def emptyStream : TCudaStream := ⟨[]⟩

/-- A kernel context with its cursor at zero. -/
def context : NKernel.TQueryLogitContext := ⟨[0]⟩

/-- A cross-entropy kernel over the given boundaries with `docs` documents in
the target, weight and value buffers. -/
def crossEntropy (queryOffsets : List Nat) (docs : Nat) : NKernelHost.TQueryCrossEntropyKernel :=
  { Alpha := ⟨0⟩, Targets := floats docs, Weights := floats docs, Values := floats docs,
    LoadIndices := ⟨List.range docs⟩, Qids := ⟨List.replicate docs 0⟩,
    IsSingleClassQueries := ⟨List.replicate docs false⟩, QueryOffsets := ⟨queryOffsets⟩,
    FunctionValue := floats 1, Ders := floats docs, Ders2llp := floats docs,
    Ders2llmax := floats docs, GroupDers2 := floats (queryOffsets.length - 1) }

/-- A pair-sizing kernel over the given boundaries and flags, with a zeroed output. -/
def matrixSizes (queryOffsets : List Nat) (flags : List Bool) :
    NKernelHost.TComputeQueryLogitMatrixSizesKernel :=
  { QueryOffsets := ⟨queryOffsets⟩, IsSingleQueryFlags := ⟨flags⟩,
    MatrixSize := ⟨List.replicate flags.length 0⟩ }

/-- A pair-generating kernel over the given boundaries and flags. -/
def makePairs (queryOffsets matrixOffset : List Nat) (flags : List Bool) (pairs : Nat) :
    NKernelHost.TMakeQueryLogitPairsKernel :=
  { QueryOffsets := ⟨queryOffsets⟩, MatrixOffset := ⟨matrixOffset⟩, IsSingleQueryFlags := ⟨flags⟩,
    MeanQuerySize := ⟨0⟩, Pairs := ⟨List.replicate pairs ⟨0, 0⟩⟩ }

/-- A group-classifier kernel: targets, identity load indices over `docs`
documents, boundaries, and an output of `flags` booleans. -/
def singleClassFlags (targets : List TFloat) (docs : Nat) (queryOffsets : List Nat)
    (flags : Nat) : NKernelHost.TMakeIsSingleClassFlagsKernel :=
  { Targets := ⟨targets⟩, LoadIndices := ⟨List.range docs⟩, QueryOffsets := ⟨queryOffsets⟩,
    MeanQuerySize := ⟨0⟩, IsSingleClassQuery := ⟨List.replicate flags false⟩ }

/-- The targets of the concrete scenario of section 8: `[1, 1]` and `[0, 1, 1]`. -/
def targets5 : List TFloat := [f1, f1, f0, f1, f1]

/-- A direct-mode filler with `pairs` pairs and `hessians` output entries. -/
def fillOnly (pairs hessians : Nat) : NKernelHost.TFillPairDer2OnlyKernel :=
  { Ders2 := floats 2, GroupDers2 := floats 1, Qids := ⟨[0, 0]⟩,
    Pairs := ⟨List.replicate pairs ⟨0, 1⟩⟩, PairDer2 := floats hessians }

/-- A remap-mode filler with `pairs` pairs and `hessians` output entries. -/
def fillRemap (pairs hessians : Nat) : NKernelHost.TFillPairDer2AndRemapPairDocumentsKernel :=
  { Ders2 := floats 2, GroupDers2 := floats 1, DocIds := ⟨[1, 0]⟩, Qids := ⟨[0, 0]⟩,
    PairDer2 := floats hessians, Pairs := ⟨List.replicate pairs ⟨0, 1⟩⟩ }

end Scenario

/-! ## Auxiliary facts -/

/-- For a non-empty array of at most `2^32` elements the 32-bit count is the length minus one. -/
theorem toUi32_ui64Sub_one (L : Nat) (h0 : 0 < L) (h : L ≤ ui32Mod) :
    toUi32 (ui64Sub L 1) = L - 1 := by
  unfold toUi32 ui64Sub ui32Mod ui64Mod at *
  omega

/-- In general the 32-bit count is the low 32 bits of the length minus one. -/
theorem toUi32_ui64Sub_succ (G : Nat) : toUi32 (ui64Sub (G + 1) 1) = G % ui32Mod := by
  unfold toUi32 ui64Sub ui32Mod ui64Mod
  omega

/-! ## Remap mode: the length check -/

namespace NKernelHost

/-- C1. Remap mode: `Run` fails if and only if the length of the Hessian buffer
`PairDer2` differs from the length of the pair buffer `Pairs`; when the lengths
are equal it does not fail and enqueues the device routine with a pair count
equal to the common length.  This holds whatever kind of failure `CB_ENSURE`
raises. -/
theorem remap_run_fails_iff_lengths_differ (k : TFillPairDer2AndRemapPairDocumentsKernel)
    (stream : TCudaStream) (ensureFailure : EFailure) :
    ((k.Run stream ensureFailure).Failure ≠ none ↔ k.PairDer2.Size ≠ k.Pairs.Size) ∧
    (k.PairDer2.Size = k.Pairs.Size →
      k.Run stream ensureFailure =
        { Stream := { Calls := stream.Calls ++
            [TDeviceCall.FillPairDer2AndRemapPairDocuments k.Ders2.Get k.GroupDers2.Get
              k.DocIds.Get k.Qids.Get k.Pairs.Size k.PairDer2.Get k.Pairs.Get] },
          Failure := none }) := by
  unfold TFillPairDer2AndRemapPairDocumentsKernel.Run CB_ENSURE launch
  by_cases h : k.PairDer2.Size = k.Pairs.Size
  · simp [h]
  · simp [h]

/-- Witness of C1: three pairs and three Hessian entries. -/
theorem remap_run_fails_iff_lengths_differ_witness :
    (Scenario.fillRemap 3 3).PairDer2.Size = (Scenario.fillRemap 3 3).Pairs.Size ∧
    (Scenario.fillRemap 3 3).Run Scenario.emptyStream EFailure.Abort =
      { Stream := { Calls :=
          [TDeviceCall.FillPairDer2AndRemapPairDocuments [Scenario.f0, Scenario.f0] [Scenario.f0]
            [1, 0] [0, 0] 3 [Scenario.f0, Scenario.f0, Scenario.f0]
            [⟨0, 1⟩, ⟨0, 1⟩, ⟨0, 1⟩]] },
        Failure := none } :=
  ⟨by decide,
   (remap_run_fails_iff_lengths_differ (Scenario.fillRemap 3 3) Scenario.emptyStream
     EFailure.Abort).2 (by decide)⟩

/-! ## The empty boundary array -/

/-- C2. For each of the four kernels that consume group boundaries, when
`QueryOffsets` is empty `Run` aborts, and it does so before the device routine
is invoked: the stream is left as it was, so no device call is enqueued and no
output buffer is written. -/
theorem run_aborts_before_launch_on_empty_offsets (stream : TCudaStream) :
    (∀ (k : TQueryCrossEntropyKernel) (context : NKernel.TQueryLogitContext),
      k.QueryOffsets.Data = [] →
      k.Run stream context = { Stream := stream, Failure := some EFailure.Abort }) ∧
    (∀ k : TComputeQueryLogitMatrixSizesKernel, k.QueryOffsets.Data = [] →
      k.Run stream = { Stream := stream, Failure := some EFailure.Abort }) ∧
    (∀ k : TMakeQueryLogitPairsKernel, k.QueryOffsets.Data = [] →
      k.Run stream = { Stream := stream, Failure := some EFailure.Abort }) ∧
    (∀ k : TMakeIsSingleClassFlagsKernel, k.QueryOffsets.Data = [] →
      k.Run stream = { Stream := stream, Failure := some EFailure.Abort }) := by
  refine ⟨?_, ?_, ?_, ?_⟩
  · intro k context h
    simp [TQueryCrossEntropyKernel.Run, Y_VERIFY, TCudaBufferPtr.Size, h]
  · intro k h
    simp [TComputeQueryLogitMatrixSizesKernel.Run, Y_VERIFY, TCudaBufferPtr.Size, h]
  · intro k h
    simp [TMakeQueryLogitPairsKernel.Run, Y_VERIFY, TCudaBufferPtr.Size, h]
  · intro k h
    simp [TMakeIsSingleClassFlagsKernel.Run, Y_VERIFY, TCudaBufferPtr.Size, h]

/-- Witness of C2: the four kernels with an empty boundary array, on an empty stream. -/
theorem run_aborts_before_launch_on_empty_offsets_witness :
    (Scenario.crossEntropy [] 5).Run Scenario.emptyStream Scenario.context =
      { Stream := Scenario.emptyStream, Failure := some EFailure.Abort } ∧
    (Scenario.matrixSizes [] [true, false]).Run Scenario.emptyStream =
      { Stream := Scenario.emptyStream, Failure := some EFailure.Abort } ∧
    (Scenario.makePairs [] [0, 0] [true, false] 3).Run Scenario.emptyStream =
      { Stream := Scenario.emptyStream, Failure := some EFailure.Abort } ∧
    (Scenario.singleClassFlags Scenario.targets5 5 [] 5).Run Scenario.emptyStream =
      { Stream := Scenario.emptyStream, Failure := some EFailure.Abort } :=
  ⟨(run_aborts_before_launch_on_empty_offsets Scenario.emptyStream).1 _ _ rfl,
   (run_aborts_before_launch_on_empty_offsets Scenario.emptyStream).2.1 _ rfl,
   (run_aborts_before_launch_on_empty_offsets Scenario.emptyStream).2.2.1 _ rfl,
   (run_aborts_before_launch_on_empty_offsets Scenario.emptyStream).2.2.2 _ rfl⟩

/-! ## The cross-entropy kernel -/

/-- What `TQueryCrossEntropyKernel::Run` enqueues when its check passes. -/
theorem crossEntropy_run_of_nonempty (k : TQueryCrossEntropyKernel) (stream : TCudaStream)
    (context : NKernel.TQueryLogitContext) (h : 0 < k.QueryOffsets.Size) :
    k.Run stream context =
      { Stream := { Calls := stream.Calls ++
          [TDeviceCall.QueryCrossEntropy context.QidCursor
            (toUi32 (ui64Sub k.QueryOffsets.Size 1)) k.Alpha k.Targets.Get k.Weights.Get
            k.Values.Get (reinterpretAsInt k.LoadIndices.Get) k.Qids.Get
            k.IsSingleClassQueries.Get k.QueryOffsets.Get (toInt32 k.Targets.Size)
            k.FunctionValue.Get k.Ders.Get k.Ders2llp.Get k.Ders2llmax.Get k.GroupDers2.Get] },
        Failure := none } := by
  simp [TQueryCrossEntropyKernel.Run, Y_VERIFY, launch, h]

/-- Counterexample to C3: with the one-element boundary array `[0]`, which
describes zero groups, `Run` does not fail; it enqueues the device routine with
group count 0. -/
theorem crossEntropy_run_zero_groups_counterexample :
    (Scenario.crossEntropy [0] 0).QueryOffsets.Size = 1 ∧
    ((Scenario.crossEntropy [0] 0).Run Scenario.emptyStream Scenario.context).Failure = none ∧
    ((Scenario.crossEntropy [0] 0).Run Scenario.emptyStream Scenario.context).Stream.Calls =
      [TDeviceCall.QueryCrossEntropy [0] 0 ⟨0⟩ [] [] [] [] [] [] [0] 0
        [Scenario.f0] [] [] [] []] := by
  decide

/-- C3, amended. `TQueryCrossEntropyKernel::Run` fails exactly when the boundary
array is empty, and the failure is an abort with nothing enqueued.  A boundary
array with exactly one element (zero groups) is accepted: `Run` enqueues the
device routine with group count 0. -/
theorem crossEntropy_run_fails_iff_offsets_empty (k : TQueryCrossEntropyKernel)
    (stream : TCudaStream) (context : NKernel.TQueryLogitContext) :
    ((k.Run stream context).Failure ≠ none ↔ k.QueryOffsets.Size = 0) ∧
    (k.QueryOffsets.Size = 0 →
      k.Run stream context = { Stream := stream, Failure := some EFailure.Abort }) ∧
    (k.QueryOffsets.Size = 1 →
      k.Run stream context =
        { Stream := { Calls := stream.Calls ++
            [TDeviceCall.QueryCrossEntropy context.QidCursor 0 k.Alpha k.Targets.Get
              k.Weights.Get k.Values.Get (reinterpretAsInt k.LoadIndices.Get) k.Qids.Get
              k.IsSingleClassQueries.Get k.QueryOffsets.Get (toInt32 k.Targets.Size)
              k.FunctionValue.Get k.Ders.Get k.Ders2llp.Get k.Ders2llmax.Get
              k.GroupDers2.Get] },
          Failure := none }) := by
  refine ⟨?_, ?_, ?_⟩
  · by_cases h : 0 < k.QueryOffsets.Size
    · rw [crossEntropy_run_of_nonempty k stream context h]
      simp
      omega
    · have h0 : k.QueryOffsets.Size = 0 := by omega
      simp [TQueryCrossEntropyKernel.Run, Y_VERIFY, h0]
  · intro h0
    simp [TQueryCrossEntropyKernel.Run, Y_VERIFY, h0]
  · intro h1
    rw [crossEntropy_run_of_nonempty k stream context (by omega), h1]
    rfl

/-- Witness of C3, amended: the boundary array `[0]` over no documents. -/
theorem crossEntropy_run_fails_iff_offsets_empty_witness :
    (Scenario.crossEntropy [0] 0).QueryOffsets.Size = 1 ∧
    (Scenario.crossEntropy [0] 0).Run Scenario.emptyStream Scenario.context =
      { Stream := { Calls :=
          [TDeviceCall.QueryCrossEntropy [0] 0 ⟨0⟩ [] [] [] [] [] [] [0] 0
            [Scenario.f0] [] [] [] []] },
        Failure := none } :=
  ⟨by decide,
   (crossEntropy_run_fails_iff_offsets_empty (Scenario.crossEntropy [0] 0)
     Scenario.emptyStream Scenario.context).2.2 (by decide)⟩

/-- Counterexample to C4: the boundary array `[0, 5]` refers to 5 documents,
the target, weight and value buffers are empty, and still `Run` does not fail:
it enqueues the device routine with group count 1 and document count 0. -/
theorem crossEntropy_run_short_buffers_counterexample :
    (Scenario.crossEntropy [0, 5] 0).QueryOffsets.Data.getLast? = some 5 ∧
    (Scenario.crossEntropy [0, 5] 0).Targets.Size = 0 ∧
    (Scenario.crossEntropy [0, 5] 0).Weights.Size = 0 ∧
    (Scenario.crossEntropy [0, 5] 0).Values.Size = 0 ∧
    ((Scenario.crossEntropy [0, 5] 0).Run Scenario.emptyStream Scenario.context).Failure = none ∧
    ((Scenario.crossEntropy [0, 5] 0).Run Scenario.emptyStream Scenario.context).Stream.Calls =
      [TDeviceCall.QueryCrossEntropy [0] 1 ⟨0⟩ [] [] [] [] [] [] [0, 5] 0
        [Scenario.f0] [] [] [] [Scenario.f0]] := by
  decide

/-- C4, amended. `TQueryCrossEntropyKernel::Run` does not compare the last group
boundary with the lengths of the target, weight or value buffer: for every input
with a non-empty boundary array, whatever its last offset and whatever the
buffer lengths, `Run` does not fail and enqueues the device routine, passing
`Targets.Size()` converted to `int` as the document count. -/
theorem crossEntropy_run_ignores_buffer_lengths (k : TQueryCrossEntropyKernel)
    (stream : TCudaStream) (context : NKernel.TQueryLogitContext) (last : Nat)
    (hlast : k.QueryOffsets.Data.getLast? = some last) :
    (k.Run stream context).Failure = none ∧
    (k.Run stream context).Stream.Calls = stream.Calls ++
      [TDeviceCall.QueryCrossEntropy context.QidCursor
        (toUi32 (ui64Sub k.QueryOffsets.Size 1)) k.Alpha k.Targets.Get
        k.Weights.Get k.Values.Get (reinterpretAsInt k.LoadIndices.Get) k.Qids.Get
        k.IsSingleClassQueries.Get k.QueryOffsets.Get (toInt32 k.Targets.Size)
        k.FunctionValue.Get k.Ders.Get k.Ders2llp.Get k.Ders2llmax.Get k.GroupDers2.Get] := by
  have hpos : 0 < k.QueryOffsets.Size := by
    unfold TCudaBufferPtr.Size
    cases hd : k.QueryOffsets.Data with
    | nil => simp [hd] at hlast
    | cons a t => simp
  rw [crossEntropy_run_of_nonempty k stream context hpos]
  exact ⟨rfl, rfl⟩

/-- Witness of C4, amended: boundaries `[0, 5]` with empty document buffers. -/
theorem crossEntropy_run_ignores_buffer_lengths_witness :
    (Scenario.crossEntropy [0, 5] 0).QueryOffsets.Data.getLast? = some 5 ∧
    ((Scenario.crossEntropy [0, 5] 0).Run Scenario.emptyStream Scenario.context).Failure = none :=
  ⟨by decide,
   (crossEntropy_run_ignores_buffer_lengths (Scenario.crossEntropy [0, 5] 0)
     Scenario.emptyStream Scenario.context 5 (by decide)).1⟩

/-! ## The group classifier -/

/-- What `TMakeIsSingleClassFlagsKernel::Run` does when both checks pass. -/
theorem singleClassFlags_run_of_checks (k : TMakeIsSingleClassFlagsKernel) (stream : TCudaStream)
    (h : 0 < k.QueryOffsets.Size) (hsize : k.LoadIndices.Size = k.IsSingleClassQuery.Size) :
    k.Run stream =
      { Stream := { Calls := stream.Calls ++
          [TDeviceCall.MakeIsSingleClassFlags k.Targets.Get k.LoadIndices.Get k.QueryOffsets.Get
            (toUi32 (ui64Sub k.QueryOffsets.Size 1)) k.MeanQuerySize k.IsSingleClassQuery.Get] },
        Failure := none } := by
  simp [TMakeIsSingleClassFlagsKernel.Run, Y_VERIFY, launch, h, hsize]

/-- What `TMakeIsSingleClassFlagsKernel::Run` does when a check fails. -/
theorem singleClassFlags_run_of_failed_check (k : TMakeIsSingleClassFlagsKernel)
    (stream : TCudaStream)
    (h : ¬ (0 < k.QueryOffsets.Size ∧ k.LoadIndices.Size = k.IsSingleClassQuery.Size)) :
    k.Run stream = { Stream := stream, Failure := some EFailure.Abort } := by
  unfold TMakeIsSingleClassFlagsKernel.Run Y_VERIFY
  by_cases h0 : 0 < k.QueryOffsets.Size
  · have hne : ¬ k.LoadIndices.Size = k.IsSingleClassQuery.Size := fun e => h ⟨h0, e⟩
    simp [h0, hne]
  · simp [h0]

/-- Counterexample to C5: boundaries `[0, 2, 5]` (2 groups), 5 documents with
one load index each, and an output of 2 flags, one per group.  `Run` aborts on
its second check and enqueues nothing. -/
theorem singleClassFlags_run_per_group_flags_counterexample :
    (Scenario.singleClassFlags Scenario.targets5 5 [0, 2, 5] 2).QueryOffsets.Size = 2 + 1 ∧
    (Scenario.singleClassFlags Scenario.targets5 5 [0, 2, 5] 2).LoadIndices.Size = 5 ∧
    (Scenario.singleClassFlags Scenario.targets5 5 [0, 2, 5] 2).IsSingleClassQuery.Size = 2 ∧
    (Scenario.singleClassFlags Scenario.targets5 5 [0, 2, 5] 2).Run Scenario.emptyStream =
      { Stream := Scenario.emptyStream, Failure := some EFailure.Abort } := by
  decide

/-- C5, amended. The output flag buffer of `TMakeIsSingleClassFlagsKernel::Run`
has to be as long as the load-index array (one flag per document), not one flag
per group: for every input with a boundary array of length `G + 1`
(`G < 2^32`) and an output flag buffer of the length of the load-index array,
`Run` does not fail and enqueues the device routine with group count `G`; when
the two lengths differ `Run` aborts and enqueues nothing. -/
theorem singleClassFlags_run_per_document_flags (k : TMakeIsSingleClassFlagsKernel)
    (stream : TCudaStream) (G : Nat) (hlen : k.QueryOffsets.Size = G + 1) (hG : G < ui32Mod) :
    (k.LoadIndices.Size = k.IsSingleClassQuery.Size →
      k.Run stream =
        { Stream := { Calls := stream.Calls ++
            [TDeviceCall.MakeIsSingleClassFlags k.Targets.Get k.LoadIndices.Get
              k.QueryOffsets.Get G k.MeanQuerySize k.IsSingleClassQuery.Get] },
          Failure := none }) ∧
    (k.LoadIndices.Size ≠ k.IsSingleClassQuery.Size →
      k.Run stream = { Stream := stream, Failure := some EFailure.Abort }) := by
  constructor
  · intro hsize
    rw [singleClassFlags_run_of_checks k stream (by omega) hsize, hlen, toUi32_ui64Sub_succ,
      Nat.mod_eq_of_lt hG]
  · intro hne
    exact singleClassFlags_run_of_failed_check k stream (fun h => hne h.2)

/-- Witness of C5, amended: boundaries `[0, 2, 5]`, 5 documents, 5 flags give
group count 2. -/
theorem singleClassFlags_run_per_document_flags_witness :
    (Scenario.singleClassFlags Scenario.targets5 5 [0, 2, 5] 5).QueryOffsets.Size = 2 + 1 ∧
    (Scenario.singleClassFlags Scenario.targets5 5 [0, 2, 5] 5).Run Scenario.emptyStream =
      { Stream := { Calls :=
          [TDeviceCall.MakeIsSingleClassFlags Scenario.targets5 [0, 1, 2, 3, 4] [0, 2, 5] 2 ⟨0⟩
            [false, false, false, false, false]] },
        Failure := none } :=
  ⟨by decide,
   (singleClassFlags_run_per_document_flags
     (Scenario.singleClassFlags Scenario.targets5 5 [0, 2, 5] 5) Scenario.emptyStream 2
     (by decide) (by decide)).1 (by decide)⟩

/-- C10. `TMakeIsSingleClassFlagsKernel::Run` enqueues the device routine if and
only if the boundary array is non-empty and the load-index array is as long as
the output flag buffer; otherwise it aborts with nothing enqueued.  Neither the
length of the target array nor the length of a non-empty boundary array takes
part in the decision. -/
theorem singleClassFlags_run_accepts_iff (k : TMakeIsSingleClassFlagsKernel)
    (stream : TCudaStream) :
    (k.Run stream =
        { Stream := { Calls := stream.Calls ++
            [TDeviceCall.MakeIsSingleClassFlags k.Targets.Get k.LoadIndices.Get
              k.QueryOffsets.Get (toUi32 (ui64Sub k.QueryOffsets.Size 1)) k.MeanQuerySize
              k.IsSingleClassQuery.Get] },
          Failure := none } ↔
      (0 < k.QueryOffsets.Size ∧ k.LoadIndices.Size = k.IsSingleClassQuery.Size)) ∧
    ((k.Run stream).Failure = none ↔
      (0 < k.QueryOffsets.Size ∧ k.LoadIndices.Size = k.IsSingleClassQuery.Size)) ∧
    (¬ (0 < k.QueryOffsets.Size ∧ k.LoadIndices.Size = k.IsSingleClassQuery.Size) →
      k.Run stream = { Stream := stream, Failure := some EFailure.Abort }) ∧
    (∀ (targets : TCudaBufferPtr TFloat) (queryOffsets : TCudaBufferPtr Nat),
      0 < k.QueryOffsets.Size → 0 < queryOffsets.Size →
      (TMakeIsSingleClassFlagsKernel.Run
        { k with Targets := targets, QueryOffsets := queryOffsets } stream).Failure =
      (k.Run stream).Failure) := by
  by_cases h : 0 < k.QueryOffsets.Size ∧ k.LoadIndices.Size = k.IsSingleClassQuery.Size
  · refine ⟨?_, ?_, ?_, ?_⟩
    · exact ⟨fun _ => h, fun _ => singleClassFlags_run_of_checks k stream h.1 h.2⟩
    · rw [singleClassFlags_run_of_checks k stream h.1 h.2]
      exact ⟨fun _ => h, fun _ => rfl⟩
    · intro hn
      exact absurd h hn
    · intro targets queryOffsets _ hq
      have hmod := singleClassFlags_run_of_checks
        { k with Targets := targets, QueryOffsets := queryOffsets } stream hq h.2
      rw [hmod, singleClassFlags_run_of_checks k stream h.1 h.2]
  · have hrun := singleClassFlags_run_of_failed_check k stream h
    refine ⟨?_, ?_, ?_, ?_⟩
    · rw [hrun]
      constructor
      · intro e
        have := congrArg TRunResult.Failure e
        simp at this
      · intro hc
        exact absurd hc h
    · rw [hrun]
      constructor
      · intro e
        simp at e
      · intro hc
        exact absurd hc h
    · intro _
      exact hrun
    · intro targets queryOffsets hk hq
      have hne : ¬ k.LoadIndices.Size = k.IsSingleClassQuery.Size := fun e => h ⟨hk, e⟩
      have hmod := singleClassFlags_run_of_failed_check
        { k with Targets := targets, QueryOffsets := queryOffsets } stream (fun hc => hne hc.2)
      rw [hmod, hrun]

/-- Witness of C10: boundaries `[0, 2, 5]` over 5 documents; with 2 flags the
call is refused, and it stays refused with 2 targets and boundaries `[0, 2]`. -/
theorem singleClassFlags_run_accepts_iff_witness :
    (Scenario.singleClassFlags Scenario.targets5 5 [0, 2, 5] 2).Run Scenario.emptyStream =
      { Stream := Scenario.emptyStream, Failure := some EFailure.Abort } ∧
    (TMakeIsSingleClassFlagsKernel.Run
      { Scenario.singleClassFlags Scenario.targets5 5 [0, 2, 5] 2 with
        Targets := ⟨[Scenario.f1, Scenario.f1]⟩, QueryOffsets := ⟨[0, 2]⟩ }
      Scenario.emptyStream).Failure =
      ((Scenario.singleClassFlags Scenario.targets5 5 [0, 2, 5] 2).Run
        Scenario.emptyStream).Failure :=
  ⟨(singleClassFlags_run_accepts_iff
      (Scenario.singleClassFlags Scenario.targets5 5 [0, 2, 5] 2) Scenario.emptyStream).2.2.1
      (by decide),
   (singleClassFlags_run_accepts_iff
      (Scenario.singleClassFlags Scenario.targets5 5 [0, 2, 5] 2) Scenario.emptyStream).2.2.2
      ⟨[Scenario.f1, Scenario.f1]⟩ ⟨[0, 2]⟩ (by decide) (by decide)⟩

/-! ## The group count -/

/-- What `TComputeQueryLogitMatrixSizesKernel::Run` enqueues when its check passes. -/
theorem matrixSizes_run_of_nonempty (k : TComputeQueryLogitMatrixSizesKernel)
    (stream : TCudaStream) (h : 0 < k.QueryOffsets.Size) :
    k.Run stream =
      { Stream := { Calls := stream.Calls ++
          [TDeviceCall.ComputeQueryLogitMatrixSizes k.QueryOffsets.Get k.IsSingleQueryFlags.Get
            (toUi32 (ui64Sub k.QueryOffsets.Size 1)) k.MatrixSize.Get] },
        Failure := none } := by
  simp [TComputeQueryLogitMatrixSizesKernel.Run, Y_VERIFY, launch, h]

/-- What `TMakeQueryLogitPairsKernel::Run` enqueues when its check passes. -/
theorem makePairs_run_of_nonempty (k : TMakeQueryLogitPairsKernel)
    (stream : TCudaStream) (h : 0 < k.QueryOffsets.Size) :
    k.Run stream =
      { Stream := { Calls := stream.Calls ++
          [TDeviceCall.MakeQueryLogitPairs k.QueryOffsets.Get k.MatrixOffset.Get
            k.IsSingleQueryFlags.Get k.MeanQuerySize (toUi32 (ui64Sub k.QueryOffsets.Size 1))
            k.Pairs.Get] },
        Failure := none } := by
  simp [TMakeQueryLogitPairsKernel.Run, Y_VERIFY, launch, h]

/-- Counterexample to C6: boundaries `[0, 2, 5]` of length 3, with 5 load
indices and 2 output flags.  `TMakeIsSingleClassFlagsKernel::Run` passes no
group count to the device routine at all: nothing is enqueued. -/
theorem group_count_not_passed_counterexample :
    0 < (Scenario.singleClassFlags Scenario.targets5 5 [0, 2, 5] 2).QueryOffsets.Size ∧
    (Scenario.singleClassFlags Scenario.targets5 5 [0, 2, 5] 2).QueryOffsets.Size < ui32Mod ∧
    ((Scenario.singleClassFlags Scenario.targets5 5 [0, 2, 5] 2).Run
      Scenario.emptyStream).Stream.Calls = [] ∧
    ((Scenario.singleClassFlags Scenario.targets5 5 [0, 2, 5] 2).Run
      Scenario.emptyStream).Failure ≠ none := by
  decide

/-- C6, amended. For every non-empty boundary array of length `L < 2^32`, the
runs of `TQueryCrossEntropyKernel`, `TComputeQueryLogitMatrixSizesKernel` and
`TMakeQueryLogitPairsKernel` enqueue the device routine with group count exactly
`L - 1`, without 32-bit wrap-around; `TMakeIsSingleClassFlagsKernel::Run` does
the same whenever its second check `LoadIndices.Size() == IsSingleClassQuery.Size()`
holds, and otherwise aborts with nothing enqueued.  So the pair sizer and the
pair generator see the same group count for the same boundary array. -/
theorem group_count_is_length_minus_one (L : Nat) (h0 : 0 < L) (hL : L < ui32Mod)
    (stream : TCudaStream) :
    (∀ (k : TQueryCrossEntropyKernel) (context : NKernel.TQueryLogitContext),
      k.QueryOffsets.Size = L →
      k.Run stream context =
        { Stream := { Calls := stream.Calls ++
            [TDeviceCall.QueryCrossEntropy context.QidCursor (L - 1) k.Alpha k.Targets.Get
              k.Weights.Get k.Values.Get (reinterpretAsInt k.LoadIndices.Get) k.Qids.Get
              k.IsSingleClassQueries.Get k.QueryOffsets.Get (toInt32 k.Targets.Size)
              k.FunctionValue.Get k.Ders.Get k.Ders2llp.Get k.Ders2llmax.Get
              k.GroupDers2.Get] },
          Failure := none }) ∧
    (∀ k : TComputeQueryLogitMatrixSizesKernel, k.QueryOffsets.Size = L →
      k.Run stream =
        { Stream := { Calls := stream.Calls ++
            [TDeviceCall.ComputeQueryLogitMatrixSizes k.QueryOffsets.Get
              k.IsSingleQueryFlags.Get (L - 1) k.MatrixSize.Get] },
          Failure := none }) ∧
    (∀ k : TMakeQueryLogitPairsKernel, k.QueryOffsets.Size = L →
      k.Run stream =
        { Stream := { Calls := stream.Calls ++
            [TDeviceCall.MakeQueryLogitPairs k.QueryOffsets.Get k.MatrixOffset.Get
              k.IsSingleQueryFlags.Get k.MeanQuerySize (L - 1) k.Pairs.Get] },
          Failure := none }) ∧
    (∀ k : TMakeIsSingleClassFlagsKernel, k.QueryOffsets.Size = L →
      (k.LoadIndices.Size = k.IsSingleClassQuery.Size →
        k.Run stream =
          { Stream := { Calls := stream.Calls ++
              [TDeviceCall.MakeIsSingleClassFlags k.Targets.Get k.LoadIndices.Get
                k.QueryOffsets.Get (L - 1) k.MeanQuerySize k.IsSingleClassQuery.Get] },
            Failure := none }) ∧
      (k.LoadIndices.Size ≠ k.IsSingleClassQuery.Size →
        k.Run stream = { Stream := stream, Failure := some EFailure.Abort })) := by
  have hcount : toUi32 (ui64Sub L 1) = L - 1 := toUi32_ui64Sub_one L h0 (Nat.le_of_lt hL)
  refine ⟨?_, ?_, ?_, ?_⟩
  · intro k context hk
    rw [crossEntropy_run_of_nonempty k stream context (by omega), hk, hcount]
  · intro k hk
    rw [matrixSizes_run_of_nonempty k stream (by omega), hk, hcount]
  · intro k hk
    rw [makePairs_run_of_nonempty k stream (by omega), hk, hcount]
  · intro k hk
    constructor
    · intro hsize
      rw [singleClassFlags_run_of_checks k stream (by omega) hsize, hk, hcount]
    · intro hne
      exact singleClassFlags_run_of_failed_check k stream (fun h => hne h.2)

/-- Witness of C6, amended: boundaries `[0, 2, 5]` give group count 2 in the
pair sizer and in the pair generator. -/
theorem group_count_is_length_minus_one_witness :
    (Scenario.matrixSizes [0, 2, 5] [true, false]).Run Scenario.emptyStream =
      { Stream := { Calls :=
          [TDeviceCall.ComputeQueryLogitMatrixSizes [0, 2, 5] [true, false] 2 [0, 0]] },
        Failure := none } ∧
    (Scenario.makePairs [0, 2, 5] [0, 0] [true, false] 3).Run Scenario.emptyStream =
      { Stream := { Calls :=
          [TDeviceCall.MakeQueryLogitPairs [0, 2, 5] [0, 0] [true, false] ⟨0⟩ 2
            [⟨0, 0⟩, ⟨0, 0⟩, ⟨0, 0⟩]] },
        Failure := none } :=
  ⟨(group_count_is_length_minus_one 3 (by decide) (by decide) Scenario.emptyStream).2.1
      (Scenario.matrixSizes [0, 2, 5] [true, false]) (by decide),
   (group_count_is_length_minus_one 3 (by decide) (by decide) Scenario.emptyStream).2.2.1
      (Scenario.makePairs [0, 2, 5] [0, 0] [true, false] 3) (by decide)⟩

/-! ## The pair fillers -/

/-- C8, at the failing input: in direct mode, with 3 pairs and only 2 Hessian
output entries, `Run` does not fail; it enqueues the device routine with pair
count 3 over the 2-entry output buffer. -/
theorem fillOnly_run_masks_length_mismatch :
    (Scenario.fillOnly 3 2).Pairs.Size = 3 ∧
    (Scenario.fillOnly 3 2).PairDer2.Size = 2 ∧
    (Scenario.fillOnly 3 2).Run Scenario.emptyStream =
      { Stream := { Calls :=
          [TDeviceCall.FillPairDer2Only [Scenario.f0, Scenario.f0] [Scenario.f0] [0, 0]
            [⟨0, 1⟩, ⟨0, 1⟩, ⟨0, 1⟩] 3 [Scenario.f0, Scenario.f0]] },
        Failure := none } := by
  decide

end NKernelHost

/-! ## The pair sizer -/

namespace NKernel

end NKernel

namespace NKernelHost

end NKernelHost
